import Mathlib

/-!
Verification of the MAPI property decoding engine of msg-extractor
(extract_msg). The embedding follows src/extract_msg/prop.py,
src/extract_msg/enums.py and
src/extract_msg/msg_classes/meeting_forward.py. Struct layouts and
constant tables that live in modules not present under src
(constants.py, enum.py, the RecurPatternType declaration) are modelled
from the specification and are marked as such in their doc comments.
-/

namespace ExtractMsg

/-- Little-endian unsigned integer of a byte list (structs use format
prefix < in the source). -/
def uintLE (bs : List Nat) : Nat :=
  bs.foldr (fun b acc => b + 256 * acc) 0

/-- First two bytes of a stream as an unsigned little-endian 16-bit value. -/
def uint16LE (bs : List Nat) : Nat := uintLE (bs.take 2)

/-- First four bytes of a stream as an unsigned little-endian 32-bit value. -/
def uint32LE (bs : List Nat) : Nat := uintLE (bs.take 4)

/-- First eight bytes of a stream as an unsigned little-endian 64-bit value. -/
def uint64LE (bs : List Nat) : Nat := uintLE (bs.take 8)

/-- Reinterpret an unsigned w-bit value as a signed (two's complement)
integer, the way the struct formats h, i, q unpack signed fields. -/
def toSigned (w : Nat) (v : Nat) : Int :=
  if v < 2 ^ (w - 1) then (v : Int) else (v : Int) - 2 ^ w

/-- Modelled from the spec: constants.MULTIPLE_2_BYTES_HEX (constants.py
is not under src). Multi-element array types of 2-byte primitives. -/
def MULTIPLE_2_BYTES_HEX : List Nat := [0x1002]

/-- Modelled from the spec: constants.MULTIPLE_4_BYTES_HEX (constants.py
is not under src). Multi-element array types of 4-byte primitives. -/
def MULTIPLE_4_BYTES_HEX : List Nat := [0x1003, 0x1004]

/-- Modelled from the spec: constants.MULTIPLE_8_BYTES_HEX (constants.py
is not under src). Multi-element array types of 8-byte primitives. -/
def MULTIPLE_8_BYTES_HEX : List Nat := [0x1005, 0x1006, 0x1007, 0x1014, 0x1040]

/-- Modelled from the spec: constants.MULTIPLE_16_BYTES_HEX (constants.py
is not under src). Multi-element array types of 16-byte primitives. -/
def MULTIPLE_16_BYTES_HEX : List Nat := [0x1048]

/-- The realLength computation of VariableLengthProp.__init__
(prop.py lines 185-200): dispatch on the 16-bit type code; length is the
u32 length field already unpacked. Python subtraction on ints can go
negative, hence the Int codomain; Python floor division // on the
nonnegative length agrees with Nat division. -/
def realLength (type : Nat) (length : Nat) : Option Int :=
  if type = 0x001E then some ((length : Int) - 1)
  else if type = 0x001F then some ((length : Int) - 2)
  else if type ∈ MULTIPLE_2_BYTES_HEX then some ((length / 2 : Nat) : Int)
  else if type ∈ MULTIPLE_4_BYTES_HEX then some ((length / 4 : Nat) : Int)
  else if type ∈ MULTIPLE_8_BYTES_HEX then some ((length / 8 : Nat) : Int)
  else if type ∈ MULTIPLE_16_BYTES_HEX then some ((length / 16 : Nat) : Int)
  else if type = 0x000D then none
  else some (length : Int)

/-- Outcome of the three-way filetime policy of the 0x0040 branch of
FixedLengthProp.parseType (prop.py lines 147-159). The external
converters (olefile.filetime2datetime, fromTimeStamp and filetimeToUtc
live outside src) are abstracted: the result records which converter
produced the value and from which raw tick count. -/
inductive TimeValue
  | fromOle (raw : Nat)
  | fromUtc (raw : Nat)
  | noDate
deriving DecidableEq, Repr

/-- The decoded value of a fixed-length property (prop.py parseType).
Floating-point payloads are kept as their raw bit patterns: no claim
decodes them. bytes is the Python case where value is left as the raw
8-byte stream. -/
inductive FixedValue
  | bytes (raw : List Nat)
  | nullValue
  | int16 (v : Int)
  | int32 (v : Int)
  | int64 (v : Int)
  | float32bits (bits : Nat)
  | float64bits (bits : Nat)
  | currency (v : ℚ)
  | floatTimeBits (bits : Nat)
  | errorCodeEnum (v : Int)
  | boolean (b : Bool)
  | time (t : TimeValue)
deriving DecidableEq, Repr

/-- Python exceptions that escape the decoder in the embedding. -/
inductive PyErr
  | nameError
deriving DecidableEq, Repr

/-- The 0x0040 (PtypTime) branch of FixedLengthProp.parseType (prop.py
lines 147-163). The two external converters may raise (timestamp
overflow); their failure is abstracted into the oleFails and utcFails
predicates. The try/except at the field level means a converter failure
leaves value bound to the raw stream bytes, which parseType then
returns. -/
def parseTimeValue (oleFails utcFails : Nat → Bool) (stream : List Nat) :
    FixedValue :=
  let rawtime := uint64LE stream
  if rawtime < 116444736000000000 then
    if oleFails rawtime then FixedValue.bytes stream
    else FixedValue.time (TimeValue.fromOle rawtime)
  else
    if rawtime ≠ 915151392000000000 then
      if utcFails rawtime then FixedValue.bytes stream
      else FixedValue.time (TimeValue.fromUtc rawtime)
    else FixedValue.time TimeValue.noDate

/-- FixedLengthProp.parseType (prop.py lines 100-167) over the 8-byte
value stream extracted by constants.STFIX. The signed sub-field widths
(h/i/q struct codes) are modelled from the spec (constants.py not under
src). errorCodeMem models membership in the closed ErrorCodeType
enumeration (enum.py not under src; spec: a closed enumeration of MAPI
error codes). In the unmapped 0x000A case the source evaluates
ErrorType(value) at line 140 inside an f-string; the name ErrorType is
not defined in prop.py, so a NameError is raised there, and the
surrounding handler catches only ValueError: the NameError escapes. -/
def parseType (errorCodeMem : Int → Bool) (oleFails utcFails : Nat → Bool)
    (t : Nat) (stream : List Nat) : Except PyErr FixedValue :=
  if t = 0x0000 then .ok (.bytes stream)
  else if t = 0x0001 then .ok .nullValue
  else if t = 0x0002 then .ok (.int16 (toSigned 16 (uint16LE stream)))
  else if t = 0x0003 then .ok (.int32 (toSigned 32 (uint32LE stream)))
  else if t = 0x0004 then .ok (.float32bits (uint32LE stream))
  else if t = 0x0005 then .ok (.float64bits (uint64LE stream))
  else if t = 0x0006 then
    .ok (.currency ((toSigned 64 (uint64LE stream) : ℚ) / 10000))
  else if t = 0x0007 then .ok (.floatTimeBits (uint64LE stream))
  else if t = 0x000A then
    let v := toSigned 32 (uint32LE stream)
    if errorCodeMem v then .ok (.errorCodeEnum v)
    else .error .nameError
  else if t = 0x000B then .ok (.boolean (uint64LE stream == 1))
  else if t = 0x0014 then .ok (.int64 (toSigned 64 (uint64LE stream)))
  else if t = 0x0040 then .ok (parseTimeValue oleFails utcFails stream)
  else if t = 0x0048 then .ok (.bytes stream)
  else .ok (.bytes stream)

/-- C1: the decoded realLength is a function of the 16-bit type code and
the encoded length only: length minus 1 for 0x001E, minus 2 for 0x001F,
floor-divided by the element width for the 2/4/8/16-byte array types,
None for 0x000D, and unchanged for every other type; in particular
0x001E at length 10 gives 9, 0x001F at length 10 gives 8, and the
16-byte-element array type at length 32 gives 2. -/
theorem realLength_rule :
    (∀ len : Nat, realLength 0x001E len = some ((len : Int) - 1)) ∧
    (∀ len : Nat, realLength 0x001F len = some ((len : Int) - 2)) ∧
    (∀ len : Nat, realLength 0x1002 len = some ((len / 2 : Nat) : Int)) ∧
    (∀ len : Nat, realLength 0x1003 len = some ((len / 4 : Nat) : Int)) ∧
    (∀ len : Nat, realLength 0x1004 len = some ((len / 4 : Nat) : Int)) ∧
    (∀ len : Nat, realLength 0x1005 len = some ((len / 8 : Nat) : Int)) ∧
    (∀ len : Nat, realLength 0x1006 len = some ((len / 8 : Nat) : Int)) ∧
    (∀ len : Nat, realLength 0x1007 len = some ((len / 8 : Nat) : Int)) ∧
    (∀ len : Nat, realLength 0x1014 len = some ((len / 8 : Nat) : Int)) ∧
    (∀ len : Nat, realLength 0x1040 len = some ((len / 8 : Nat) : Int)) ∧
    (∀ len : Nat, realLength 0x1048 len = some ((len / 16 : Nat) : Int)) ∧
    (∀ len : Nat, realLength 0x000D len = none) ∧
    (∀ type len : Nat, type ≠ 0x001E → type ≠ 0x001F →
      type ∉ MULTIPLE_2_BYTES_HEX → type ∉ MULTIPLE_4_BYTES_HEX →
      type ∉ MULTIPLE_8_BYTES_HEX → type ∉ MULTIPLE_16_BYTES_HEX →
      type ≠ 0x000D → realLength type len = some (len : Int)) ∧
    realLength 0x001E 10 = some 9 ∧
    realLength 0x001F 10 = some 8 ∧
    realLength 0x1048 32 = some 2 := by
  refine ⟨fun len => rfl, fun len => rfl, fun len => rfl, fun len => rfl,
    fun len => rfl, fun len => rfl, fun len => rfl, fun len => rfl,
    fun len => rfl, fun len => rfl, fun len => rfl, fun len => rfl,
    ?_, by decide, by decide, by decide⟩
  intro type len h1 h2 h3 h4 h5 h6 h7
  unfold realLength
  rw [if_neg h1, if_neg h2, if_neg h3, if_neg h4, if_neg h5, if_neg h6,
    if_neg h7]

/-- Witness for realLength_rule: its hypothesis-bearing conjunct applied
at the concrete type code 0x0102 (Binary), which is in none of the
special sets, and length 7. -/
theorem realLength_rule_witness :
    realLength 0x0102 7 = some (7 : Int) :=
  realLength_rule.2.2.2.2.2.2.2.2.2.2.2.2.1 0x0102 7
    (by decide) (by decide) (by decide) (by decide) (by decide) (by decide)
    (by decide)

/-- C10: the trailing-NUL subtraction is applied unconditionally, with no
clamping at zero: type 0x001E at length 0 gives realLength -1, and type
0x001F at lengths 0 and 1 gives -2 and -1. -/
theorem realLength_negative :
    realLength 0x001E 0 = some (-1) ∧
    realLength 0x001F 0 = some (-2) ∧
    realLength 0x001F 1 = some (-1) ∧
    (∀ len : Nat, realLength 0x001E len = some ((len : Int) - 1)) ∧
    (∀ len : Nat, realLength 0x001F len = some ((len : Int) - 2)) := by
  exact ⟨by decide, by decide, by decide, fun len => rfl, fun len => rfl⟩

/-- C2: for type 0x0040 the raw unsigned 64-bit filetime value selects
one of three conversions: below 116444736000000000 the permissive
olefile fallback converter, at the sentinel 915151392000000000 the
"no date" maximum datetime, and otherwise the 100ns-ticks-since-1601
UTC conversion. Stated with converters that succeed, so the policy
itself is visible in the result. -/
theorem time_three_way_policy
    (mem : Int → Bool) (stream : List Nat) :
    (uint64LE stream < 116444736000000000 →
      parseType mem (fun _ => false) (fun _ => false) 0x0040 stream =
        .ok (.time (.fromOle (uint64LE stream)))) ∧
    (uint64LE stream = 915151392000000000 →
      parseType mem (fun _ => false) (fun _ => false) 0x0040 stream =
        .ok (.time .noDate)) ∧
    (116444736000000000 ≤ uint64LE stream →
      uint64LE stream ≠ 915151392000000000 →
      parseType mem (fun _ => false) (fun _ => false) 0x0040 stream =
        .ok (.time (.fromUtc (uint64LE stream)))) := by
  have hrfl : parseType mem (fun _ => false) (fun _ => false) 0x0040 stream =
      .ok (parseTimeValue (fun _ => false) (fun _ => false) stream) := rfl
  refine ⟨fun hlt => ?_, fun hsent => ?_, fun hge hne => ?_⟩ <;>
    rw [hrfl] <;> simp only [parseTimeValue]
  · rw [if_pos hlt]
    simp
  · rw [if_neg (by omega), if_neg (by simp [hsent])]
  · rw [if_neg (by omega), if_pos hne]
    simp

/-- Witness for time_three_way_policy: all three branches at concrete
8-byte streams: zero ticks (olefile fallback), the little-endian
encoding of the sentinel 915151392000000000 (no date), and
0x0200000000000000 ticks (UTC conversion). -/
theorem time_three_way_policy_witness :
    parseType (fun _ => false) (fun _ => false) (fun _ => false) 0x0040
        [0, 0, 0, 0, 0, 0, 0, 0] = .ok (.time (.fromOle 0)) ∧
    parseType (fun _ => false) (fun _ => false) (fun _ => false) 0x0040
        [0x00, 0x40, 0xDD, 0xA3, 0x57, 0x45, 0xB3, 0x0C] =
      .ok (.time .noDate) ∧
    parseType (fun _ => false) (fun _ => false) (fun _ => false) 0x0040
        [0, 0, 0, 0, 0, 0, 0, 2] =
      .ok (.time (.fromUtc 144115188075855872)) := by
  refine ⟨(time_three_way_policy (fun _ => false)
      [0, 0, 0, 0, 0, 0, 0, 0]).1 (by decide), ?_, ?_⟩
  · have h := (time_three_way_policy (fun _ => false)
      [0x00, 0x40, 0xDD, 0xA3, 0x57, 0x45, 0xB3, 0x0C]).2.1 (by decide)
    exact h
  · have h := (time_three_way_policy (fun _ => false)
      [0, 0, 0, 0, 0, 0, 0, 2]).2.2 (by decide) (by decide)
    have he : uint64LE [0, 0, 0, 0, 0, 0, 0, 2] = 144115188075855872 := by
      decide
    rw [he] at h
    exact h

/-- C6: when the selected time converter raises (timestamp overflow),
the exception is contained at the single-field level: parseType still
returns normally (ok, no propagation) and the value is the raw 8-byte
stream, left undecoded. -/
theorem time_overflow_contained
    (mem : Int → Bool) (oleFails utcFails : Nat → Bool) (stream : List Nat) :
    (uint64LE stream < 116444736000000000 →
      oleFails (uint64LE stream) = true →
      parseType mem oleFails utcFails 0x0040 stream =
        .ok (.bytes stream)) ∧
    (116444736000000000 ≤ uint64LE stream →
      uint64LE stream ≠ 915151392000000000 →
      utcFails (uint64LE stream) = true →
      parseType mem oleFails utcFails 0x0040 stream =
        .ok (.bytes stream)) := by
  have hrfl : parseType mem oleFails utcFails 0x0040 stream =
      .ok (parseTimeValue oleFails utcFails stream) := rfl
  refine ⟨fun hlt hf => ?_, fun hge hne hf => ?_⟩ <;>
    rw [hrfl] <;> simp only [parseTimeValue]
  · rw [if_pos hlt, if_pos hf]
  · rw [if_neg (by omega), if_pos hne, if_pos hf]

/-- Witness for time_overflow_contained: both failing-converter branches
at concrete streams, with converters that always fail. -/
theorem time_overflow_contained_witness :
    parseType (fun _ => false) (fun _ => true) (fun _ => true) 0x0040
        [0, 0, 0, 0, 0, 0, 0, 0] =
      .ok (.bytes [0, 0, 0, 0, 0, 0, 0, 0]) ∧
    parseType (fun _ => false) (fun _ => true) (fun _ => true) 0x0040
        [0, 0, 0, 0, 0, 0, 0, 2] =
      .ok (.bytes [0, 0, 0, 0, 0, 0, 0, 2]) :=
  ⟨(time_overflow_contained (fun _ => false) (fun _ => true) (fun _ => true)
      [0, 0, 0, 0, 0, 0, 0, 0]).1 (by decide) rfl,
   (time_overflow_contained (fun _ => false) (fun _ => true) (fun _ => true)
      [0, 0, 0, 0, 0, 0, 0, 2]).2 (by decide) (by decide) rfl⟩

/-- C7: type 0x0006 (Currency) decodes to the signed 64-bit integer
divided by 10000 (division modelled exactly over the rationals, the
ideal value of the source's division by 10000.0); in particular a
stream encoding 123456 decodes to 12.3456. -/
theorem currency_decode :
    (∀ (mem : Int → Bool) (oleF utcF : Nat → Bool) (stream : List Nat),
      parseType mem oleF utcF 0x0006 stream =
        .ok (.currency ((toSigned 64 (uint64LE stream) : ℚ) / 10000))) ∧
    parseType (fun _ => false) (fun _ => false) (fun _ => false) 0x0006
        [0x40, 0xE2, 0x01, 0, 0, 0, 0, 0] =
      .ok (.currency (12.3456 : ℚ)) := by
  constructor
  · intro mem oleF utcF stream
    rfl
  · have h : toSigned 64 (uint64LE [0x40, 0xE2, 0x01, 0, 0, 0, 0, 0]) =
        (123456 : Int) := by decide
    simp only [parseType, reduceIte, h]
    norm_num

/-- C8: type 0x0048 (Guid) is explicitly unsupported: parseType performs
no conversion and returns the raw stream bytes unchanged. -/
theorem guid_raw_bytes
    (mem : Int → Bool) (oleF utcF : Nat → Bool) (stream : List Nat) :
    parseType mem oleF utcF 0x0048 stream = .ok (.bytes stream) := rfl

/-- Witness for guid_raw_bytes at a concrete stream. -/
theorem guid_raw_bytes_witness :
    parseType (fun _ => false) (fun _ => false) (fun _ => false) 0x0048
        [1, 2, 3, 4, 5, 6, 7, 8] = .ok (.bytes [1, 2, 3, 4, 5, 6, 7, 8]) :=
  guid_raw_bytes (fun _ => false) (fun _ => false) (fun _ => false)
    [1, 2, 3, 4, 5, 6, 7, 8]

/-- C3, settled against the code: for a 0x000A (ErrorCode) value outside
the closed ErrorCodeType enumeration, line 140 of prop.py evaluates the
undefined name ErrorType inside an f-string; the resulting NameError is
not caught by the surrounding except ValueError handler, so decoding
raises instead of retaining the raw integer. -/
theorem errorCode_unmapped_raises
    (mem : Int → Bool) (oleF utcF : Nat → Bool) (stream : List Nat)
    (h : mem (toSigned 32 (uint32LE stream)) = false) :
    parseType mem oleF utcF 0x000A stream = .error .nameError := by
  have hrfl : parseType mem oleF utcF 0x000A stream =
      if mem (toSigned 32 (uint32LE stream)) then
        .ok (.errorCodeEnum (toSigned 32 (uint32LE stream)))
      else .error .nameError := rfl
  rw [hrfl, if_neg (by simp [h])]

/-- Witness for errorCode_unmapped_raises: the empty enumeration and the
all-zero stream (raw error code 0). -/
theorem errorCode_unmapped_raises_witness :
    parseType (fun _ => false) (fun _ => false) (fun _ => false) 0x000A
        [0, 0, 0, 0, 0, 0, 0, 0] = .error .nameError :=
  errorCode_unmapped_raises (fun _ => false) (fun _ => false)
    (fun _ => false) [0, 0, 0, 0, 0, 0, 0, 0] rfl

/-- Modelled from the spec: constants.FIXED_LENGTH_PROPS (constants.py
is not under src); the fixed-length type codes of the dispatch table:
Unspecified, Null, Int16, Int32, Float32, Float64, Currency,
FloatingTime, ErrorCode, Boolean, Int64, Time, Guid. -/
def FIXED_LENGTH_PROPS : List Nat :=
  [0x0000, 0x0001, 0x0002, 0x0003, 0x0004, 0x0005, 0x0006, 0x0007,
   0x000A, 0x000B, 0x0014, 0x0040, 0x0048]

/-- Modelled from the spec: constants.VARIABLE_LENGTH_PROPS
(constants.py is not under src); the variable-length type codes:
String8, Unicode, Binary, binary-with-external-length, and the
multi-element array types. -/
def VARIABLE_LENGTH_PROPS : List Nat :=
  [0x000D, 0x001E, 0x001F, 0x0102, 0x101E, 0x101F, 0x1102] ++
    MULTIPLE_2_BYTES_HEX ++ MULTIPLE_4_BYTES_HEX ++
    MULTIPLE_8_BYTES_HEX ++ MULTIPLE_16_BYTES_HEX

/-- The property object built by createProp: either a FixedLengthProp
with its parsed value, or a VariableLengthProp with the length,
realLength and reserved fields unpacked by constants.STVAR from the
last 8 bytes of the 16-byte record. -/
inductive CreatedProp
  | fixedProp (value : FixedValue)
  | variableProp (length : Nat) (realLen : Option Int) (reserved : Nat)
deriving DecidableEq, Repr

/-- createProp (prop.py lines 15-23) over the type code and the 8-byte
payload of the 16-byte record: fixed-length type codes build a
FixedLengthProp (whose construction runs parseType and can propagate
its exception), everything else builds a VariableLengthProp, with a
logged warning (the Bool of the result) exactly when the code is in
neither table. -/
def createProp (errorCodeMem : Int → Bool) (oleFails utcFails : Nat → Bool)
    (t : Nat) (payload : List Nat) : Except PyErr (CreatedProp × Bool) :=
  if t ∈ FIXED_LENGTH_PROPS then
    (parseType errorCodeMem oleFails utcFails t payload).map
      (fun v => (CreatedProp.fixedProp v, false))
  else
    let warned := t ∉ VARIABLE_LENGTH_PROPS
    let length := uint32LE payload
    .ok (CreatedProp.variableProp length (realLength t length)
      (uint32LE (payload.drop 4)), warned)

/-- C4: a type code in neither the fixed-length nor the variable-length
table does not fail createProp: the result is ok (no exception), it is
a VariableLengthProp, and the unknown-type warning is emitted. -/
theorem createProp_unknown_type
    (mem : Int → Bool) (oleF utcF : Nat → Bool) (t : Nat)
    (payload : List Nat)
    (hf : t ∉ FIXED_LENGTH_PROPS) (hv : t ∉ VARIABLE_LENGTH_PROPS) :
    createProp mem oleF utcF t payload =
      .ok (CreatedProp.variableProp (uint32LE payload)
        (realLength t (uint32LE payload)) (uint32LE (payload.drop 4)),
        true) := by
  unfold createProp
  rw [if_neg hf]
  simp [hv]

/-- Witness for createProp_unknown_type at the unknown type code 0x9999
and an all-zero payload. -/
theorem createProp_unknown_type_witness :
    createProp (fun _ => false) (fun _ => false) (fun _ => false) 0x9999
        [0, 0, 0, 0, 0, 0, 0, 0] =
      .ok (CreatedProp.variableProp 0 (some 0) 0, true) := by
  have h := createProp_unknown_type (fun _ => false) (fun _ => false)
    (fun _ => false) 0x9999 [0, 0, 0, 0, 0, 0, 0, 0]
    (by decide) (by decide)
  simpa using h

/-- The member names shared by the EntryIDType and EntryIDTypeHex
enumerations (enums.py lines 213-252). In the source both Python enums
declare the same seven names; PERMANENT carries the same value as
ADDRESS_BOOK_RECIPIENT and is therefore an alias of it under Python
Enum semantics. -/
inductive EntryIDName
  | ADDRESS_BOOK_RECIPIENT
  | CA_OR_PDL_RECIPIENT
  | NNTP_NEWSGROUP_FOLDER
  | ONE_OFF_RECIPIENT
  | PERMANENT
  | PUBLIC_MESSAGE_STORE
  | WRAPPED
deriving DecidableEq, Repr, Fintype

/-- The byte signatures of EntryIDType (enums.py lines 223-231). -/
def entryIDValue : EntryIDName → List Nat
  | .ADDRESS_BOOK_RECIPIENT =>
    [0xDC, 0xA7, 0x40, 0xC8, 0xC0, 0x42, 0x10, 0x1A,
     0xB4, 0xB9, 0x08, 0x00, 0x2B, 0x2F, 0xE1, 0x82]
  | .CA_OR_PDL_RECIPIENT =>
    [0xFE, 0x42, 0xAA, 0x0A, 0x18, 0xC7, 0x1A, 0x10,
     0xE8, 0x85, 0x0B, 0x65, 0x1C, 0x24, 0x00, 0x00]
  | .NNTP_NEWSGROUP_FOLDER =>
    [0x38, 0xA1, 0xBB, 0x10, 0x05, 0xE5, 0x10, 0x1A,
     0xA1, 0xBB, 0x08, 0x00, 0x2B, 0x2A, 0x56, 0xC2]
  | .ONE_OFF_RECIPIENT =>
    [0x81, 0x2B, 0x1F, 0xA4, 0xBE, 0xA3, 0x10, 0x19,
     0x9D, 0x6E, 0x00, 0xDD, 0x01, 0x0F, 0x54, 0x02]
  | .PERMANENT =>
    [0xDC, 0xA7, 0x40, 0xC8, 0xC0, 0x42, 0x10, 0x1A,
     0xB4, 0xB9, 0x08, 0x00, 0x2B, 0x2F, 0xE1, 0x82]
  | .PUBLIC_MESSAGE_STORE =>
    [0x1A, 0x44, 0x73, 0x90, 0xAA, 0x66, 0x11, 0xCD,
     0x9B, 0xC8, 0x00, 0xAA, 0x00, 0x2F, 0xC4, 0x5A]
  | .WRAPPED =>
    [0xC0, 0x91, 0xAD, 0xD3, 0x51, 0x9D, 0xCF, 0x11,
     0xA4, 0xA9, 0x00, 0xAA, 0x00, 0x47, 0xFA, 0xA4]

/-- The hex-string values of EntryIDTypeHex (enums.py lines 244-252). -/
def entryIDHexValue : EntryIDName → String
  | .ADDRESS_BOOK_RECIPIENT => "DCA740C8C042101AB4B908002B2FE182"
  | .CA_OR_PDL_RECIPIENT => "FE42AA0A18C71A10E8850B651C240000"
  | .NNTP_NEWSGROUP_FOLDER => "38A1BB1005E5101AA1BB08002B2A56C2"
  | .ONE_OFF_RECIPIENT => "812B1FA4BEA310199D6E00DD010F5402"
  | .PERMANENT => "DCA740C8C042101AB4B908002B2FE182"
  | .PUBLIC_MESSAGE_STORE => "1A447390AA6611CD9BC800AA002FC45A"
  | .WRAPPED => "C091ADD3519DCF11A4A900AA0047FAA4"

/-- The members in declaration order; Python Enum value lookup returns
the first declared member with a matching value, so PERMANENT (an
alias) is never returned by a value lookup. -/
def entryIDMembers : List EntryIDName :=
  [.ADDRESS_BOOK_RECIPIENT, .CA_OR_PDL_RECIPIENT, .NNTP_NEWSGROUP_FOLDER,
   .ONE_OFF_RECIPIENT, .PERMANENT, .PUBLIC_MESSAGE_STORE, .WRAPPED]

/-- Python value lookup EntryIDType(bytes): the canonical member whose
signature equals the given bytes. -/
def entryIDFromBytes (b : List Nat) : Option EntryIDName :=
  entryIDMembers.find? (fun k => entryIDValue k == b)

/-- Python value lookup EntryIDTypeHex(str): the canonical member whose
hex value equals the given string. -/
def entryIDFromHex (h : String) : Option EntryIDName :=
  entryIDMembers.find? (fun k => entryIDHexValue k == h)

/-- EntryIDType.toHex (enums.py lines 217-221): name lookup
EntryIDTypeHex[self.name], the same-named member of the hex
enumeration. -/
def entryIDToHex (k : EntryIDName) : EntryIDName := k

/-- EntryIDTypeHex.toRaw (enums.py lines 238-242): name lookup
EntryIDType[self.name], the same-named member of the raw-bytes
enumeration. -/
def entryIDToRaw (k : EntryIDName) : EntryIDName := k

/-- Uppercase hex digit of a value below 16 (48 is the code of the
digit zero, 65 the code of the letter A). -/
def hexDigit (n : Nat) : Char :=
  if n < 10 then Char.ofNat (48 + n) else Char.ofNat (65 + (n - 10))

/-- Uppercase hex encoding of a byte string, two digits per byte, as
bytes.hex().upper() produces in the source ecosystem. -/
def hexEncode (bs : List Nat) : String :=
  String.mk ((bs.map (fun b => [hexDigit (b / 16), hexDigit (b % 16)])).flatten)

/-- C5: for every member, resolving its byte signature yields a valid
kind whose hex representation (via toHex) is exactly the hex encoding
of the signature, and resolving that hex string back (via toRaw) yields
a raw-bytes kind with the same signature; in particular the
bit-identical ADDRESS_BOOK_RECIPIENT and PERMANENT signatures both
resolve without error (to the canonical member). -/
theorem entryID_roundTrip :
    (∀ k : EntryIDName,
      (entryIDFromBytes (entryIDValue k)).map
          (fun j => entryIDHexValue (entryIDToHex j)) =
        some (hexEncode (entryIDValue k)) ∧
      (entryIDFromHex (hexEncode (entryIDValue k))).map
          (fun j => entryIDValue (entryIDToRaw j)) =
        some (entryIDValue k)) ∧
    (entryIDFromBytes
        (entryIDValue EntryIDName.ADDRESS_BOOK_RECIPIENT)).isSome = true ∧
    (entryIDFromBytes (entryIDValue EntryIDName.PERMANENT)).isSome = true := by
  refine ⟨fun k => ?_, by decide, by decide⟩
  cases k <;> exact ⟨by decide, by decide⟩

/-- Modelled from the spec: RecurPatternType (its declaration is not
under src; meeting_forward.py imports it from the enums module and
names exactly these eight members in its recurrence table). -/
inductive RecurPatternType
  | DAY
  | WEEK
  | MONTH
  | MONTH_NTH
  | MONTH_END
  | HJ_MONTH
  | HJ_MONTH_NTH
  | HJ_MONTH_END
deriving DecidableEq, Repr

/-- The accessor values a MeetingForwardNotification reads while
building its header block (meeting_forward.py lines 31-69).
appointmentRecur is None when the recurrence property is absent,
otherwise it carries the patternType of the parsed recurrence
structure; the remaining accessors are the already-formatted optional
display strings. -/
structure MeetingForwardState where
  appointmentRecur : Option RecurPatternType
  subject : Option String
  location : Option String
  startDateFormatted : Option String
  endDateFormatted : Option String
  recurrencePattern : Option String
  organizer : Option String
  requiredAttendees : Option String
  optionalAttendees : Option String
  resources : Option String
  importanceString : Option String

/-- The recurrence dictionary of headerFormatProperties
(meeting_forward.py lines 36-45). -/
def recurTable : RecurPatternType → String
  | .DAY => "Daily"
  | .WEEK => "Weekly"
  | .MONTH => "Monthly"
  | .MONTH_NTH => "Monthly"
  | .MONTH_END => "Monthly"
  | .HJ_MONTH => "Monthly"
  | .HJ_MONTH_NTH => "Monthly"
  | .HJ_MONTH_END => "Monthly"

/-- MeetingForwardNotification.headerFormatProperties (meeting_forward.py
lines 31-69): the grouped key/value sections, with the recurrence
description computed from appointmentRecur (the literal placeholder
when the property is absent). -/
def headerFormatProperties (s : MeetingForwardState) :
    List (String × List (String × Option String)) :=
  let recur := match s.appointmentRecur with
    | none => "(none)"
    | some p => recurTable p
  [("-main info-",
    [("Subject", s.subject), ("Location", s.location)]),
   ("-date-",
    [("Start", s.startDateFormatted), ("End", s.endDateFormatted)]),
   ("-recurrence-",
    [("Recurrance", some recur),
     ("Recurrence Pattern", s.recurrencePattern)]),
   ("-attendees-",
    [("Organizer", s.organizer),
     ("Required Attendees", s.requiredAttendees),
     ("Optional Attendees", s.optionalAttendees),
     ("Resources", s.resources)]),
   ("-importance-",
    [("Importance", s.importanceString)])]

/-- C9: in the header block the recurrence description is derived from
the recurrence pattern by the fixed table (DAY to Daily, WEEK to
Weekly, every MONTH-family pattern to Monthly) and is the literal
placeholder when no recurrence property is present. -/
theorem meetingForward_recurrence (s : MeetingForwardState) :
    ((headerFormatProperties s).lookup "-recurrence-").bind
        (List.lookup "Recurrance") =
      some (some (match s.appointmentRecur with
        | none => "(none)"
        | some .DAY => "Daily"
        | some .WEEK => "Weekly"
        | some .MONTH => "Monthly"
        | some .MONTH_NTH => "Monthly"
        | some .MONTH_END => "Monthly"
        | some .HJ_MONTH => "Monthly"
        | some .HJ_MONTH_NTH => "Monthly"
        | some .HJ_MONTH_END => "Monthly")) := by
  rcases s with ⟨ar, _, _, _, _, _, _, _, _, _, _⟩
  cases ar with
  | none => rfl
  | some p => cases p <;> rfl

end ExtractMsg
